import Mathlib

/-!
Verification of the BRANDSLIP personalization flow.

The definitions below shallowly embed the logic of the React frontend
(`frontend/src/pages/...`, `frontend/src/lib/api.js`): component state is a
record, user interactions and completed network calls are events, and each
handler becomes a pure function from state (plus the server's response,
passed as a parameter) to state and emitted API calls.  Parts of the
render pipeline that live only in the backend (absent from the sources)
are modelled from the spec and marked as such in their doc comments.
-/

namespace Brandslip

/-- A creative variant as used by `DealerCreativeDetail.jsx`.  Display-only
fields (`label`, `width`, `height`, `file_url`) are elided: only `id` flows
into the render request. -/
structure Variant where
  id : String
deriving DecidableEq, Repr

/-- A creative; only its `variants` list is used by the flow's logic. -/
structure Creative where
  variants : List Variant
deriving DecidableEq, Repr

/-- A slip template offered in step 2; only `id` flows into the request. -/
structure Template where
  id : String
deriving DecidableEq, Repr

/-- A dealer slip offered in step 2; only `id` flows into the request. -/
structure Slip where
  id : String
deriving DecidableEq, Repr

/-- A rendered asset as returned by the render endpoint. -/
structure Asset where
  id : String
  output_url : String
deriving DecidableEq, Repr

/-- The request body built by `handleRender` in `DealerCreativeDetail.jsx`
(lines 86-94). -/
structure RenderData where
  creative_variant_id : String
  slip_mode : String
  slip_template_id : Option String
  dealer_slip_id : Option String
  dealer_id : String
  qr_type : Option String
  qr_value : Option String
deriving DecidableEq, Repr

/-- The component state of `DealerCreativeDetail` (its `useState` hooks). -/
structure CDState where
  creative : Option Creative
  selectedVariant : Option Variant
  slipTemplates : List Template
  dealerSlips : List Slip
  renderedAsset : Option Asset
  slipMode : String
  selectedTemplateId : String
  selectedDealerSlipId : String
  qrType : String
  customQrValue : String
  step : Nat
  rendering : Bool
deriving DecidableEq, Repr

/-- Initial state of the `useState` hooks in `DealerCreativeDetail.jsx`. -/
def CDInit : CDState :=
  { creative := none
    selectedVariant := none
    slipTemplates := []
    dealerSlips := []
    renderedAsset := none
    slipMode := "template"
    selectedTemplateId := ""
    selectedDealerSlipId := ""
    qrType := "whatsapp"
    customQrValue := ""
    step := 1
    rendering := false }

/-- User interactions and completed network calls on the personalization
page.  Each constructor corresponds to a UI element of the page (the two
slip-mode radio items, the four QR radio items, the per-step buttons) or to
a completed async call (`load` for `loadData`, the `Option Asset` on
`generate` for the render response). -/
inductive CDEvent where
  | load (c : Creative) (ts : List Template) (slips : List Slip)
  | selectVariant (v : Variant)
  | next1
  | back2
  | setModeTemplate
  | setModeDealerSlip
  | selectTemplate (t : Template)
  | selectSlip (sl : Slip)
  | next2
  | back3
  | setQrWhatsapp
  | setQrMaps
  | setQrCustom
  | setQrNone
  | setCustomQr (v : String)
  | generate (res : Option Asset)
  | createAnother
deriving DecidableEq, Repr

/-- The body assembled by `handleRender` (lines 86-94) from the current
selection state, the selected variant `v` and the user's dealer id `d`. -/
def renderDataOf (d : String) (v : Variant) (s : CDState) : RenderData :=
  { creative_variant_id := v.id
    slip_mode := s.slipMode
    slip_template_id := if s.slipMode = "template" then some s.selectedTemplateId else none
    dealer_slip_id := if s.slipMode = "dealer_slip" then some s.selectedDealerSlipId else none
    dealer_id := d
    qr_type := if s.qrType = "none" then none else some s.qrType
    qr_value := if s.qrType = "custom" then some s.customQrValue else none }

/-- One step of the personalization page: applies an event to the state and
returns the render submissions it performs.  Guards mirror when the UI
element exists and is enabled in the JSX (steps render exclusively, the
dealer-slip radio needs a non-empty slip list, the step-2 continue button's
`disabled` condition, the generate button's `disabled` condition, and the
`handleRender` early return).  `uid` is `user?.dealer_id`, fixed for the
session; the dealer-slip fetch in `loadData` happens only when it is set
and always carries `status: 'approved'`. -/
def CDStepE (uid : Option String) (s : CDState) (e : CDEvent) :
    CDState × List RenderData :=
  match e with
  | .load c ts slips =>
      ({ s with
          creative := some c
          slipTemplates := ts
          selectedVariant := match c.variants with
            | [] => s.selectedVariant
            | v :: _ => some v
          selectedTemplateId := match ts with
            | [] => s.selectedTemplateId
            | t :: _ => t.id
          dealerSlips := if uid.isSome then slips else s.dealerSlips }, [])
  | .selectVariant v =>
      match s.creative with
      | some c =>
          if s.step = 1 ∧ v ∈ c.variants then
            ({ s with selectedVariant := some v }, [])
          else (s, [])
      | none => (s, [])
  | .next1 =>
      if s.step = 1 ∧ s.selectedVariant.isSome then ({ s with step := 2 }, [])
      else (s, [])
  | .back2 =>
      if s.step = 2 then ({ s with step := 1 }, []) else (s, [])
  | .setModeTemplate =>
      if s.step = 2 then ({ s with slipMode := "template" }, []) else (s, [])
  | .setModeDealerSlip =>
      if s.step = 2 ∧ s.dealerSlips ≠ [] then
        ({ s with slipMode := "dealer_slip" }, [])
      else (s, [])
  | .selectTemplate t =>
      if s.step = 2 ∧ s.slipMode = "template" ∧ t ∈ s.slipTemplates then
        ({ s with selectedTemplateId := t.id }, [])
      else (s, [])
  | .selectSlip sl =>
      if s.step = 2 ∧ s.slipMode = "dealer_slip" ∧ sl ∈ s.dealerSlips then
        ({ s with selectedDealerSlipId := sl.id }, [])
      else (s, [])
  | .next2 =>
      if s.step = 2 ∧
          (if s.slipMode = "template" then s.selectedTemplateId ≠ ""
           else s.selectedDealerSlipId ≠ "") then
        ({ s with step := 3 }, [])
      else (s, [])
  | .back3 =>
      if s.step = 3 then ({ s with step := 2 }, []) else (s, [])
  | .setQrWhatsapp =>
      if s.step = 3 then ({ s with qrType := "whatsapp" }, []) else (s, [])
  | .setQrMaps =>
      if s.step = 3 then ({ s with qrType := "maps" }, []) else (s, [])
  | .setQrCustom =>
      if s.step = 3 then ({ s with qrType := "custom" }, []) else (s, [])
  | .setQrNone =>
      if s.step = 3 then ({ s with qrType := "none" }, []) else (s, [])
  | .setCustomQr v =>
      if s.step = 3 ∧ s.qrType = "custom" then
        ({ s with customQrValue := v }, [])
      else (s, [])
  | .generate res =>
      if s.step = 3 ∧ s.rendering = false ∧
          ¬(s.qrType = "custom" ∧ s.customQrValue = "") then
        match s.selectedVariant, uid with
        | some v, some d =>
            match res with
            | some a =>
                ({ s with renderedAsset := some a, step := 4 },
                 [renderDataOf d v s])
            | none => (s, [renderDataOf d v s])
        | some _, none => (s, [])
        | none, _ => (s, [])
      else (s, [])
  | .createAnother =>
      if s.step = 4 ∧ s.renderedAsset.isSome then
        ({ s with step := 1, renderedAsset := none }, [])
      else (s, [])

/-- State after a list of events. -/
def CDRun (uid : Option String) (s : CDState) : List CDEvent → CDState
  | [] => s
  | e :: es => CDRun uid (CDStepE uid s e).1 es

/-- All render submissions performed along a list of events. -/
def CDSubs (uid : Option String) (s : CDState) : List CDEvent → List RenderData
  | [] => []
  | e :: es => (CDStepE uid s e).2 ++ CDSubs uid (CDStepE uid s e).1 es

/-- Ids delivered by the `status: 'approved'` dealer-slip fetch of one
`loadData` completion (the fetch only happens when a dealer id is on the
session). -/
def loadIds (uid : Option String) : CDEvent → List String
  | .load _ _ slips => if uid.isSome then slips.map Slip.id else []
  | _ => []

/-- Ids of dealer slips returned by the `status: 'approved'` fetches of
`loadData` along a trace. -/
def approvedIds (uid : Option String) : List CDEvent → List String
  | [] => []
  | e :: es => loadIds uid e ++ approvedIds uid es

/-- Reachability invariant of the personalization page, relative to a set
`A` of slip ids known to come from approved-filtered fetches: the slip
mode is one of the two radio values, every offered dealer slip and any
non-initial slip selection comes from `A`, and past step 2 a dealer-slip
selection is non-empty whenever that mode is active. -/
def CDInv (A : List String) (s : CDState) : Prop :=
  (s.slipMode = "template" ∨ s.slipMode = "dealer_slip") ∧
  (∀ sl ∈ s.dealerSlips, sl.id ∈ A) ∧
  (s.selectedDealerSlipId = "" ∨ s.selectedDealerSlipId ∈ A) ∧
  (3 ≤ s.step → s.slipMode = "dealer_slip" → s.selectedDealerSlipId ≠ "")

/-- Shape of a well-formed render submission, relative to the session's
dealer id and a set `A` of approved-fetched slip ids. -/
def GoodSub (uid : Option String) (A : List String) (rd : RenderData) : Prop :=
  (rd.slip_mode = "template" ∨ rd.slip_mode = "dealer_slip") ∧
  (rd.slip_template_id.isSome ↔ rd.slip_mode = "template") ∧
  (rd.dealer_slip_id.isSome ↔ rd.slip_mode = "dealer_slip") ∧
  uid = some rd.dealer_id ∧
  (rd.qr_type = some "custom" → ∃ p, rd.qr_value = some p ∧ p ≠ "") ∧
  (rd.qr_type = none → rd.qr_value = none) ∧
  (rd.qr_value.isSome → rd.qr_type = some "custom") ∧
  (rd.slip_mode = "dealer_slip" → ∃ i, rd.dealer_slip_id = some i ∧ i ∈ A)

/-- An API call made by `handleShare`. -/
inductive ShareCall where
  | createShareLink (assetId : String)
deriving DecidableEq, Repr

/-- The `handleShare` handler of `DealerCreativeDetail.jsx` (lines 122-146):
guard on `renderedAsset`, one `createShareLink` call with the asset's id,
and the shared URL built from the freshly returned `share_token`.  The
server's token is passed as a parameter; the WhatsApp fallback text around
the URL is elided (it embeds the same `shareUrl`). -/
def handleShare (origin : String) (renderedAsset : Option Asset)
    (token : String) : List ShareCall × Option String :=
  match renderedAsset with
  | none => ([], none)
  | some a => ([.createShareLink a.id], some (origin ++ "/s/" ++ token))

/-- The three localStorage keys touched by the interceptor in
`lib/api.js`. -/
structure Storage where
  access : Option String
  refresh : Option String
  user : Option String
deriving DecidableEq, Repr

/-- Outcome of one HTTP attempt. -/
inductive HttpOutcome where
  | ok
  | err (status : Nat)
deriving DecidableEq, Repr

/-- What a request's promise finally resolves to. -/
inductive ReqResult where
  | success
  | failure
deriving DecidableEq, Repr

/-- Result of pushing one original request through the response
interceptor. -/
structure InterceptorRun where
  result : ReqResult
  storage : Storage
  refreshAttempts : Nat
deriving DecidableEq, Repr

/-- The axios response interceptor of `lib/api.js` (lines 24-56) applied to
one original request.  `o1` is the original response, `refreshRes` the
refresh endpoint's outcome (a new access token, or `none` on failure), `o2`
the retried request's response.  On a 401 the `_retry` flag is set before
refreshing, so when the retried request 401s again the interceptor rejects
without a second refresh; on refresh failure the three stored records are
removed (the redirect to `/login` is elided). -/
def runInterceptor (st : Storage) (o1 : HttpOutcome)
    (refreshRes : Option String) (o2 : HttpOutcome) : InterceptorRun :=
  match o1 with
  | .ok => ⟨.success, st, 0⟩
  | .err s1 =>
      if s1 = 401 then
        match st.refresh with
        | none => ⟨.failure, st, 0⟩
        | some _ =>
            match refreshRes with
            | some newTok =>
                match o2 with
                | .ok => ⟨.success, { st with access := some newTok }, 1⟩
                | .err _ => ⟨.failure, { st with access := some newTok }, 1⟩
            | none => ⟨.failure, ⟨none, none, none⟩, 1⟩
      else ⟨.failure, st, 0⟩

/-- The upload form state of `DealerSlips.jsx` (`newSlip`); the selected
file is its name, `none` when no file is chosen, and the preview URL is
elided (it is derived from the file). -/
structure NewSlip where
  name : String
  file : Option String
  brandId : String
deriving DecidableEq, Repr

/-- A dealer slip record as listed on `DealerSlips.jsx` and reviewed on
`ManagerApprovals.jsx`. -/
structure DSlip where
  id : String
  dealer_id : String
  status : String
deriving DecidableEq, Repr

/-- The slip-creation call of `dealerSlipAPI.create`. -/
structure UploadCall where
  dealer_id : String
  brand_id : String
  name : String
  file : String
deriving DecidableEq, Repr

/-- The page state of `DealerSlips.jsx` relevant to uploading. -/
structure SlipsPage where
  slips : List DSlip
  newSlip : NewSlip
deriving DecidableEq, Repr

/-- The `handleUpload` handler of `DealerSlips.jsx` (lines 74-97): if the
name, file or brand id is missing it reports an error and returns without
any API call; otherwise it creates the slip and resets the form to the
first approved brand.  The success path's refetch of the slip list
(`loadData`) is elided, as the claim under check concerns the missing-field
path. -/
def handleUpload (uid : String) (brands : List String) (st : SlipsPage) :
    List UploadCall × SlipsPage × Bool :=
  if st.newSlip.name = "" ∨ st.newSlip.file = none ∨ st.newSlip.brandId = "" then
    ([], st, true)
  else
    match st.newSlip.file with
    | some f =>
        ([⟨uid, st.newSlip.brandId, st.newSlip.name, f⟩],
         { st with newSlip := ⟨"", none, (brands.head?).getD ""⟩ }, false)
    | none => ([], st, true)

/-- Digits consumed by JS `parseInt` in base 10: the longest prefix of
decimal digits. -/
def leadingDecDigits : List Char → List Char
  | [] => []
  | c :: cs => if c.isDigit then c :: leadingDecDigits cs else []

/-- Digits consumed by JS `parseInt` after a `0x` prefix. -/
def leadingHexDigits : List Char → List Char
  | [] => []
  | c :: cs =>
      if c.isDigit ∨ ('a' ≤ c ∧ c ≤ 'f') ∨ ('A' ≤ c ∧ c ≤ 'F') then
        c :: leadingHexDigits cs
      else []

/-- Numeric value of a hex digit. -/
def hexVal (c : Char) : Nat :=
  if c.isDigit then c.toNat - 48
  else if 'a' ≤ c ∧ c ≤ 'f' then c.toNat - 87
  else c.toNat - 55

/-- Value of a digit string in the given base. -/
def digitsToNat (base : Nat) : List Char → Nat :=
  List.foldl (fun acc c => acc * base + hexVal c) 0

/-- JS `parseInt` on an unsigned tail: `0x`/`0X` switches to hex, else the
longest decimal-digit prefix; `none` models `NaN` (no digit consumed). -/
def jsParseIntUnsigned (cs : List Char) : Option Nat :=
  match cs with
  | '0' :: 'x' :: rest =>
      match leadingHexDigits rest with
      | [] => none
      | ds => some (digitsToNat 16 ds)
  | '0' :: 'X' :: rest =>
      match leadingHexDigits rest with
      | [] => none
      | ds => some (digitsToNat 16 ds)
  | _ =>
      match leadingDecDigits cs with
      | [] => none
      | ds => some (digitsToNat 10 ds)

/-- JS `parseInt(s)` (radix omitted): leading whitespace skipped, optional
sign, hex on a `0x` prefix, otherwise decimal; `none` models `NaN`. -/
def jsParseInt (s : String) : Option Int :=
  let cs := s.data.dropWhile (fun c => c = ' ' ∨ c = '\t' ∨ c = '\n' ∨ c = '\r')
  match cs with
  | '-' :: rest => (jsParseIntUnsigned rest).map (fun n => -(n : Int))
  | '+' :: rest => (jsParseIntUnsigned rest).map (fun n => (n : Int))
  | _ => (jsParseIntUnsigned cs).map (fun n => (n : Int))

/-- The Max Width % input's onChange in `AdminSlipTemplates.jsx` (line 297):
`parseInt(e.target.value) || 100` — JS treats both `NaN` and `0` as falsy,
so those fall back to 100; any other parsed integer passes through. -/
def maxWFromInput (s : String) : Int :=
  match jsParseInt s with
  | none => 100
  | some n => if n = 0 then 100 else n

/-- The Max Height % input's onChange (line 306):
`parseInt(e.target.value) || 20`. -/
def maxHFromInput (s : String) : Int :=
  match jsParseInt s with
  | none => 20
  | some n => if n = 0 then 20 else n

/-- The `formData` state of `AdminSlipTemplates.jsx`. -/
structure TemplateForm where
  name : String
  position : String
  max_w_pct : Int
  max_h_pct : Int
  allowed_fields : List String
  style_preset : String
  bg_style : String
deriving DecidableEq, Repr

/-- Initial `formData` (lines 27-35). -/
def templateFormInit : TemplateForm :=
  { name := ""
    position := "bottom"
    max_w_pct := 100
    max_h_pct := 20
    allowed_fields := ["shop_name", "phone", "qr"]
    style_preset := "standard"
    bg_style := "light" }

/-- Typing into the Template Name input. -/
def setFormName (form : TemplateForm) (s : String) : TemplateForm :=
  { form with name := s }

/-- Typing into the Max Width % input. -/
def setFormMaxW (form : TemplateForm) (s : String) : TemplateForm :=
  { form with max_w_pct := maxWFromInput s }

/-- Typing into the Max Height % input. -/
def setFormMaxH (form : TemplateForm) (s : String) : TemplateForm :=
  { form with max_h_pct := maxHFromInput s }

/-- The body sent by `handleSubmit` (`{...formData, brand_id}`). -/
structure TemplateSubmitData where
  name : String
  position : String
  max_w_pct : Int
  max_h_pct : Int
  allowed_fields : List String
  style_preset : String
  bg_style : String
  brand_id : String
deriving DecidableEq, Repr

/-- The `handleSubmit` handler of `AdminSlipTemplates.jsx` (lines 99-123):
only the name is validated; the form's percent values are submitted as-is
(the create/update distinction does not affect the body). -/
def handleSubmitTemplate (brandId : String) (form : TemplateForm) :
    Option TemplateSubmitData :=
  if form.name = "" then none
  else
    some
      { name := form.name
        position := form.position
        max_w_pct := form.max_w_pct
        max_h_pct := form.max_h_pct
        allowed_fields := form.allowed_fields
        style_preset := form.style_preset
        bg_style := form.bg_style
        brand_id := brandId }

/-- Modelled from the spec: the dealer-slip backend (POST `/dealer-slips`)
is not in the sources.  Per §3, a `DealerSlip` is created on upload in
`pending` status (corroborated by the frontend's "Slip uploaded! Pending
approval." toast). -/
def uploadSlip (store : List DSlip) (id dealerId : String) : List DSlip :=
  ⟨id, dealerId, "pending"⟩ :: store

/-- Modelled from the spec: the approval endpoint
(PUT `/dealer-slips/{id}/approve`) is not in the sources.  Per §3, the
status is "transitioned once by a zonal reviewer": only a `pending` slip
moves, to `approved` or `rejected`. -/
def approveSlipStore (store : List DSlip) (id : String) (approve : Bool) :
    List DSlip :=
  store.map (fun sl =>
    if sl.id = id ∧ sl.status = "pending" then
      { sl with status := if approve then "approved" else "rejected" }
    else sl)

/-- Modelled from the spec: the deletion endpoint
(DELETE `/dealer-slips/{id}`) is not in the sources.  Per §3 a slip is
"deletable by the owning dealer at any time"; the frontend's delete button
(`DealerSlips.jsx` lines 99-109) is offered for every listed slip with no
status condition. -/
def deleteSlipStore (store : List DSlip) (id : String) : List DSlip :=
  store.filter (fun sl => sl.id ≠ id)

/-- The slip list fetched by `ManagerApprovals.jsx` `loadData` (line 37):
`dealerSlipAPI.list({ status: 'pending' })`; approve/reject buttons are
rendered only for slips of this list. -/
def fetchPendingSlips (store : List DSlip) : List DSlip :=
  store.filter (fun sl => sl.status = "pending")

/-- The persisted output of a render, per §3; only the identity matters
for the idempotence claim. -/
structure RenderedAsset where
  asset_id : String
deriving DecidableEq, Repr

/-- Modelled from the spec (§4.4, §5): the Asset Manager backend is not in
the sources.  State of the fingerprint-keyed single-flight cache: `done`
maps a fingerprint to its published asset, `inflight` holds fingerprints
whose production is running. -/
structure AMState where
  done : List (String × RenderedAsset)
  inflight : List String
deriving DecidableEq, Repr

/-- The empty cache. -/
def AMInit : AMState := ⟨[], []⟩

/-- Modelled from the spec (§5): steps of the single-flight cache.  A
`start fp` begins producing a fingerprint — allowed only when it is neither
published nor in flight (later arrivals with the same fingerprint await the
in-flight producer instead of starting a duplicate); a `finish fp`
publishes the deterministic output `produce fp` (§4.3 determinism).
Arbitrary interleavings of these steps model concurrent requests. -/
inductive AMEvent where
  | start (fp : String)
  | finish (fp : String)
deriving DecidableEq, Repr

/-- One step of the single-flight cache; a step whose guard fails leaves
the state unchanged. -/
def AMStep (produce : String → RenderedAsset) (s : AMState) :
    AMEvent → AMState
  | .start fp =>
      if s.done.lookup fp = none ∧ fp ∉ s.inflight then
        { s with inflight := fp :: s.inflight }
      else s
  | .finish fp =>
      if fp ∈ s.inflight then
        { done := (fp, produce fp) :: s.done, inflight := s.inflight.erase fp }
      else s

/-- State of the cache after a list of steps. -/
def AMRun (produce : String → RenderedAsset) (s : AMState) :
    List AMEvent → AMState
  | [] => s
  | e :: es => AMRun produce (AMStep produce s e) es

/-- Number of productions actually begun for a fingerprint along a trace
(`start` events whose guard held). -/
def startCount (produce : String → RenderedAsset) (fp : String)
    (s : AMState) : List AMEvent → Nat
  | [] => 0
  | e :: es =>
      (if e = AMEvent.start fp ∧ s.done.lookup fp = none ∧ fp ∉ s.inflight
       then 1 else 0) +
      startCount produce fp (AMStep produce s e) es

/-- A fingerprint counts as started once it is in flight or published. -/
def started (s : AMState) (fp : String) : Prop :=
  fp ∈ s.inflight ∨ (s.done.lookup fp).isSome

instance (s : AMState) (fp : String) : Decidable (started s fp) := by
  unfold started
  infer_instance

/-! Theorems. -/

/-- C7: each invocation of the Share action performs exactly one
`createShareLink` call, passing the currently rendered asset's id, and the
shared URL embeds the freshly returned `share_token` after `/s/`; with no
rendered asset, no share-link call is made. -/
theorem share_single_call (origin token : String) (a : Asset) :
    handleShare origin none token = ([], none) ∧
    handleShare origin (some a) token =
      ([ShareCall.createShareLink a.id], some (origin ++ "/s/" ++ token)) :=
  ⟨rfl, rfl⟩

/-- C9: on a 401 the interceptor refreshes and retries the original request
at most once (the retried request carries `_retry`, so a second refresh is
impossible), and when the refresh itself fails the stored access token,
refresh token and user record are all cleared. -/
theorem interceptor_single_retry (st : Storage) (o1 : HttpOutcome)
    (refreshRes : Option String) (o2 : HttpOutcome) :
    (runInterceptor st o1 refreshRes o2).refreshAttempts ≤ 1 ∧
    (o1 = HttpOutcome.err 401 → st.refresh.isSome → refreshRes = none →
      (runInterceptor st o1 refreshRes o2).storage = ⟨none, none, none⟩) := by
  constructor
  · cases o1 with
    | ok => simp [runInterceptor]
    | err s1 =>
        by_cases h1 : s1 = 401
        · subst h1
          cases hr : st.refresh with
          | none => simp [runInterceptor, hr]
          | some rt =>
              cases refreshRes with
              | none => simp [runInterceptor, hr]
              | some tk => cases o2 <;> simp [runInterceptor, hr]
        · simp [runInterceptor, h1]
  · intro h1 h2 h3
    subst h1; subst h3
    cases hr : st.refresh with
    | none => rw [hr] at h2; simp at h2
    | some rt => simp [runInterceptor, hr]

/-- Witness for C9 at a concrete populated storage with a failing
refresh. -/
theorem interceptor_single_retry_witness :
    (runInterceptor ⟨some "a", some "r", some "u"⟩ (HttpOutcome.err 401)
        none HttpOutcome.ok).refreshAttempts ≤ 1 ∧
    (runInterceptor ⟨some "a", some "r", some "u"⟩ (HttpOutcome.err 401)
        none HttpOutcome.ok).storage = ⟨none, none, none⟩ := by
  have h := interceptor_single_retry ⟨some "a", some "r", some "u"⟩
    (HttpOutcome.err 401) none HttpOutcome.ok
  exact ⟨h.1, h.2 rfl (by decide) rfl⟩

/-- C10: the dealer slip upload handler performs no slip-creation request
unless the name, the file and the brand id are all present; when one is
missing it reports the error and leaves the page state (slip list and
form) unchanged. -/
theorem upload_guard (uid : String) (brands : List String) (st : SlipsPage)
    (h : st.newSlip.name = "" ∨ st.newSlip.file = none ∨
      st.newSlip.brandId = "") :
    handleUpload uid brands st = ([], st, true) := by
  unfold handleUpload
  rw [if_pos h]

/-- Witness for C10: a form with a name and brand but no file. -/
theorem upload_guard_witness :
    handleUpload "d1" ["b1"] ⟨[], ⟨"My Slip", none, "b1"⟩⟩ =
      ([], ⟨[], ⟨"My Slip", none, "b1"⟩⟩, true) :=
  upload_guard "d1" ["b1"] ⟨[], ⟨"My Slip", none, "b1"⟩⟩ (Or.inr (Or.inl rfl))

/-- C4 counterexample: typing "500" into the Max Width % input stores 500
and `handleSubmit` submits it unvalidated, violating the invariant
`max_w_pct ≤ 100`. -/
theorem template_pct_counterexample :
    (handleSubmitTemplate "b1"
        (setFormMaxW (setFormName templateFormInit "T") "500")).map
      TemplateSubmitData.max_w_pct = some 500 ∧
    ¬((500 : Int) ≤ 100) := by
  constructor
  · rfl
  · decide

/-- C4 amended: the percent inputs coerce an unparseable or zero entry to
the in-range defaults (100 for width, 20 for height), so the submitted
values are always non-zero integers; any other parsed integer — including
values outside (0, 100] — is submitted as typed, so the percentage
invariant holds exactly when the parsed entry lies in that range. -/
theorem template_pct_amended (sw sh name bid : String) (h : name ≠ "") :
    ∃ d, handleSubmitTemplate bid
        (setFormMaxH (setFormMaxW (setFormName templateFormInit name) sw) sh)
        = some d ∧
      d.max_w_pct = maxWFromInput sw ∧ d.max_h_pct = maxHFromInput sh ∧
      d.max_w_pct ≠ 0 ∧ d.max_h_pct ≠ 0 ∧
      (jsParseInt sw = none ∨ jsParseInt sw = some 0 → d.max_w_pct = 100) ∧
      (jsParseInt sh = none ∨ jsParseInt sh = some 0 → d.max_h_pct = 20) ∧
      (∀ n : Int, jsParseInt sw = some n → n ≠ 0 → d.max_w_pct = n) ∧
      (∀ n : Int, jsParseInt sh = some n → n ≠ 0 → d.max_h_pct = n) := by
  refine ⟨TemplateSubmitData.mk name "bottom" (maxWFromInput sw)
      (maxHFromInput sh) ["shop_name", "phone", "qr"] "standard" "light" bid,
    ?_, rfl, rfl, ?_, ?_, ?_, ?_, ?_, ?_⟩
  · unfold handleSubmitTemplate setFormMaxH setFormMaxW setFormName
      templateFormInit
    simp [h]
  · unfold maxWFromInput
    cases hp : jsParseInt sw with
    | none => simp
    | some n => by_cases hn : n = 0 <;> simp [hn]
  · unfold maxHFromInput
    cases hp : jsParseInt sh with
    | none => simp
    | some n => by_cases hn : n = 0 <;> simp [hn]
  · intro hc
    unfold maxWFromInput
    rcases hc with hc | hc <;> simp [hc]
  · intro hc
    unfold maxHFromInput
    rcases hc with hc | hc <;> simp [hc]
  · intro n hp hn
    unfold maxWFromInput
    simp [hp, hn]
  · intro n hp hn
    unfold maxHFromInput
    simp [hp, hn]

/-- Witness for C4 amended: width entry "500" (parses out of range),
height entry "abc" (unparseable, falls back to 20). -/
theorem template_pct_amended_witness :
    ∃ d, handleSubmitTemplate "b1"
        (setFormMaxH (setFormMaxW (setFormName templateFormInit "T") "500")
          "abc") = some d ∧
      d.max_w_pct = maxWFromInput "500" ∧ d.max_h_pct = maxHFromInput "abc" ∧
      d.max_w_pct ≠ 0 ∧ d.max_h_pct ≠ 0 ∧
      (jsParseInt "500" = none ∨ jsParseInt "500" = some 0 →
        d.max_w_pct = 100) ∧
      (jsParseInt "abc" = none ∨ jsParseInt "abc" = some 0 →
        d.max_h_pct = 20) ∧
      (∀ n : Int, jsParseInt "500" = some n → n ≠ 0 → d.max_w_pct = n) ∧
      (∀ n : Int, jsParseInt "abc" = some n → n ≠ 0 → d.max_h_pct = n) :=
  template_pct_amended "500" "abc" "T" "b1" (by decide)

/-- C6: a dealer slip is created pending on upload; the approvals screen
fetches only pending slips, so approve/reject is offered only for those,
and a slip already in a terminal status is left untouched by a further
approval call (the status transitions at most once); deletion filters on
the id alone, so the owning dealer can delete a slip in any status. -/
theorem slip_lifecycle (store : List DSlip) (id dealerId : String)
    (ap : Bool) (sl : DSlip) :
    (uploadSlip store id dealerId).head? = some ⟨id, dealerId, "pending"⟩ ∧
    (sl ∈ fetchPendingSlips store → sl.status = "pending") ∧
    (sl ∈ store → sl.status ≠ "pending" → sl ∈ approveSlipStore store id ap) ∧
    (sl ∈ deleteSlipStore store id ↔ sl ∈ store ∧ sl.id ≠ id) := by
  refine ⟨rfl, ?_, ?_, ?_⟩
  · intro hmem
    exact of_decide_eq_true (List.mem_filter.mp hmem).2
  · intro hmem hst
    unfold approveSlipStore
    have hcond : ¬(sl.id = id ∧ sl.status = "pending") := fun hc => hst hc.2
    have hmap := List.mem_map_of_mem (fun sl : DSlip =>
        if sl.id = id ∧ sl.status = "pending" then
          { sl with status := if ap then "approved" else "rejected" }
        else sl) hmem
    simpa [hcond] using hmap
  · unfold deleteSlipStore
    constructor
    · intro hmem
      have := List.mem_filter.mp hmem
      exact ⟨this.1, of_decide_eq_true this.2⟩
    · intro ⟨hmem, hne⟩
      exact List.mem_filter.mpr ⟨hmem, decide_eq_true hne⟩

/-- Witness for C6 on a one-slip store. -/
theorem slip_lifecycle_witness :
    (uploadSlip [] "s1" "d1").head? = some ⟨"s1", "d1", "pending"⟩ ∧
    (DSlip.mk "s1" "d1" "approved" ∈
        approveSlipStore [⟨"s1", "d1", "approved"⟩] "s1" true) ∧
    (DSlip.mk "s1" "d1" "approved" ∉
        deleteSlipStore [⟨"s1", "d1", "approved"⟩] "s1") := by
  have h := slip_lifecycle [⟨"s1", "d1", "approved"⟩] "s1" "d1" true
    ⟨"s1", "d1", "approved"⟩
  refine ⟨(slip_lifecycle [] "s1" "d1" true ⟨"s1", "d1", "approved"⟩).1, ?_, ?_⟩
  · exact h.2.2.1 (by decide) (by decide)
  · intro hmem
    exact absurd (h.2.2.2.mp hmem).2 (by decide)

/-- A started fingerprint stays started across any cache step. -/
theorem started_mono (produce : String → RenderedAsset) (s : AMState)
    (e : AMEvent) (fp : String) (h : started s fp) :
    started (AMStep produce s e) fp := by
  cases e with
  | start fp' =>
      simp only [AMStep]
      by_cases hg : s.done.lookup fp' = none ∧ fp' ∉ s.inflight
      · rw [if_pos hg]
        rcases h with h | h
        · exact Or.inl (List.mem_cons_of_mem _ h)
        · exact Or.inr h
      · rw [if_neg hg]
        exact h
  | finish fp' =>
      simp only [AMStep]
      by_cases hg : fp' ∈ s.inflight
      · rw [if_pos hg]
        by_cases hfp : fp = fp'
        · subst hfp
          right
          simp [List.lookup]
        · rcases h with h | h
          · exact Or.inl ((List.mem_erase_of_ne hfp).mpr h)
          · right
            simp only [List.lookup, show (fp == fp') = false by
              simpa using hfp]
            exact h
      · rw [if_neg hg]
        exact h

/-- No production is begun for a fingerprint that is already started. -/
theorem startCount_zero (produce : String → RenderedAsset) (fp : String) :
    ∀ (es : List AMEvent) (s : AMState), started s fp →
      startCount produce fp s es = 0 := by
  intro es
  induction es with
  | nil => intro s _; rfl
  | cons e es ih =>
      intro s h
      unfold startCount
      rw [if_neg, ih _ (started_mono produce s e fp h)]
      rintro ⟨_, hdone, hinf⟩
      rcases h with h | h
      · exact hinf h
      · rw [hdone] at h
        simp at h

/-- At most one production is ever begun for a given fingerprint, in any
interleaving. -/
theorem startCount_le_one (produce : String → RenderedAsset) (fp : String) :
    ∀ (es : List AMEvent) (s : AMState), startCount produce fp s es ≤ 1 := by
  intro es
  induction es with
  | nil => intro s; simp [startCount]
  | cons e es ih =>
      intro s
      unfold startCount
      by_cases hc : e = AMEvent.start fp ∧ s.done.lookup fp = none ∧
          fp ∉ s.inflight
      · rw [if_pos hc]
        have hstep : started (AMStep produce s e) fp := by
          rcases hc with ⟨he, hdone, hinf⟩
          subst he
          simp only [AMStep]
          rw [if_pos ⟨hdone, hinf⟩]
          exact Or.inl (List.mem_cons_self fp s.inflight)
        rw [startCount_zero produce fp es _ hstep]
      · rw [if_neg hc]
        simpa using ih (AMStep produce s e)

/-- Anything the cache publishes for a fingerprint is its deterministic
output. -/
theorem AMRun_lookup (produce : String → RenderedAsset) (fp : String) :
    ∀ (es : List AMEvent) (s : AMState),
      (∀ a, s.done.lookup fp = some a → a = produce fp) →
      ∀ a, (AMRun produce s es).done.lookup fp = some a → a = produce fp := by
  intro es
  induction es with
  | nil => intro s h; exact h
  | cons e es ih =>
      intro s h
      refine ih _ ?_
      cases e with
      | start fp' =>
          intro a ha
          simp only [AMStep] at ha
          by_cases hg : s.done.lookup fp' = none ∧ fp' ∉ s.inflight
          · rw [if_pos hg] at ha
            exact h a ha
          · rw [if_neg hg] at ha
            exact h a ha
      | finish fp' =>
          intro a ha
          simp only [AMStep] at ha
          by_cases hg : fp' ∈ s.inflight
          · rw [if_pos hg] at ha
            by_cases hfp : fp = fp'
            · subst hfp
              simp [List.lookup] at ha
              exact ha.symm
            · simp only [List.lookup, show (fp == fp') = false by
                simpa using hfp] at ha
              exact h a ha
          · rw [if_neg hg] at ha
            exact h a ha

/-- C5: renders are idempotent per fingerprint.  Modelled from the spec
(§4.4, §5): in any interleaving of cache steps (concurrent or sequential
requests), at most one production of a fingerprint is begun, and any two
render calls that resolve for the same fingerprint — at any two points of
any executions of the machine — receive assets with the same `asset_id`. -/
theorem render_idempotent (produce : String → RenderedAsset) (fp : String)
    (es es' : List AMEvent) (a a' : RenderedAsset)
    (h : (AMRun produce AMInit es).done.lookup fp = some a)
    (h' : (AMRun produce AMInit es').done.lookup fp = some a') :
    a.asset_id = a'.asset_id ∧ startCount produce fp AMInit es ≤ 1 := by
  have hinit : ∀ b, (AMInit).done.lookup fp = some b → b = produce fp := by
    intro b hb
    simp [AMInit, List.lookup] at hb
  have e1 := AMRun_lookup produce fp es AMInit hinit a h
  have e2 := AMRun_lookup produce fp es' AMInit hinit a' h'
  rw [e1, e2]
  exact ⟨rfl, startCount_le_one produce fp es AMInit⟩

/-- Witness for C5: a concrete trace in which two requests for the same
fingerprint overlap; the second arrival awaits the first production. -/
theorem render_idempotent_witness :
    (RenderedAsset.mk "A").asset_id = (RenderedAsset.mk "A").asset_id ∧
      startCount (fun _ => RenderedAsset.mk "A") "f" AMInit
        [AMEvent.start "f", AMEvent.start "f", AMEvent.finish "f"] ≤ 1 :=
  render_idempotent (fun _ => RenderedAsset.mk "A") "f"
    [AMEvent.start "f", AMEvent.start "f", AMEvent.finish "f"]
    [AMEvent.start "f", AMEvent.finish "f"]
    (RenderedAsset.mk "A") (RenderedAsset.mk "A") (by decide) (by decide)

/-- The page invariant is monotone in the set of approved-fetched ids. -/
theorem CDInv_mono {A B : List String} (hAB : ∀ x ∈ A, x ∈ B) {s : CDState}
    (h : CDInv A s) : CDInv B s := by
  obtain ⟨h1, h2, h3, h4⟩ := h
  refine ⟨h1, fun sl hsl => hAB _ (h2 sl hsl), ?_, h4⟩
  rcases h3 with h3 | h3
  · exact Or.inl h3
  · exact Or.inr (hAB _ h3)

/-- One page step preserves the invariant, growing the approved set by the
ids the step's fetch (if any) delivered. -/
theorem CDInv_step (uid : Option String) (A : List String) (s : CDState)
    (e : CDEvent) (h : CDInv A s) :
    CDInv (A ++ loadIds uid e) (CDStepE uid s e).1 := by
  obtain ⟨h1, h2, h3, h4⟩ := h
  cases e with
  | load c ts slips =>
      simp only [CDStepE, loadIds]
      refine ⟨h1, ?_, ?_, h4⟩
      · intro sl hsl
        by_cases hu : uid.isSome
        · rw [if_pos hu] at hsl ⊢
          exact List.mem_append_right A (List.mem_map_of_mem Slip.id hsl)
        · rw [if_neg hu] at hsl ⊢
          rw [List.append_nil]
          exact h2 sl hsl
      · rcases h3 with h3 | h3
        · exact Or.inl h3
        · exact Or.inr (List.mem_append_left _ h3)
  | selectVariant v =>
      simp only [CDStepE, loadIds, List.append_nil]
      rcases hc : s.creative with _ | c
      · dsimp only
        exact ⟨h1, h2, h3, h4⟩
      · dsimp only
        by_cases hg : s.step = 1 ∧ v ∈ c.variants
        · rw [if_pos hg]
          exact ⟨h1, h2, h3, h4⟩
        · rw [if_neg hg]
          exact ⟨h1, h2, h3, h4⟩
  | next1 =>
      simp only [CDStepE, loadIds, List.append_nil]
      by_cases hg : s.step = 1 ∧ s.selectedVariant.isSome
      · rw [if_pos hg]
        refine ⟨h1, h2, h3, fun hle _ => ?_⟩
        dsimp only at hle
        exact absurd hle (by omega)
      · rw [if_neg hg]
        exact ⟨h1, h2, h3, h4⟩
  | back2 =>
      simp only [CDStepE, loadIds, List.append_nil]
      by_cases hg : s.step = 2
      · rw [if_pos hg]
        refine ⟨h1, h2, h3, fun hle _ => ?_⟩
        dsimp only at hle
        exact absurd hle (by omega)
      · rw [if_neg hg]
        exact ⟨h1, h2, h3, h4⟩
  | setModeTemplate =>
      simp only [CDStepE, loadIds, List.append_nil]
      by_cases hg : s.step = 2
      · rw [if_pos hg]
        refine ⟨Or.inl rfl, h2, h3, fun _ hm => ?_⟩
        dsimp only at hm
        exact absurd hm (by decide)
      · rw [if_neg hg]
        exact ⟨h1, h2, h3, h4⟩
  | setModeDealerSlip =>
      simp only [CDStepE, loadIds, List.append_nil]
      by_cases hg : s.step = 2 ∧ s.dealerSlips ≠ []
      · rw [if_pos hg]
        refine ⟨Or.inr rfl, h2, h3, fun hle _ => ?_⟩
        dsimp only at hle
        rw [hg.1] at hle
        exact absurd hle (by omega)
      · rw [if_neg hg]
        exact ⟨h1, h2, h3, h4⟩
  | selectTemplate t =>
      simp only [CDStepE, loadIds, List.append_nil]
      by_cases hg : s.step = 2 ∧ s.slipMode = "template" ∧ t ∈ s.slipTemplates
      · rw [if_pos hg]
        refine ⟨h1, h2, h3, fun hle _ => ?_⟩
        dsimp only at hle
        rw [hg.1] at hle
        exact absurd hle (by omega)
      · rw [if_neg hg]
        exact ⟨h1, h2, h3, h4⟩
  | selectSlip sl =>
      simp only [CDStepE, loadIds, List.append_nil]
      by_cases hg : s.step = 2 ∧ s.slipMode = "dealer_slip" ∧
          sl ∈ s.dealerSlips
      · rw [if_pos hg]
        refine ⟨h1, h2, Or.inr (h2 sl hg.2.2), fun hle _ => ?_⟩
        dsimp only at hle
        rw [hg.1] at hle
        exact absurd hle (by omega)
      · rw [if_neg hg]
        exact ⟨h1, h2, h3, h4⟩
  | next2 =>
      simp only [CDStepE, loadIds, List.append_nil]
      by_cases hg : s.step = 2 ∧
          (if s.slipMode = "template" then s.selectedTemplateId ≠ ""
           else s.selectedDealerSlipId ≠ "")
      · rw [if_pos hg]
        refine ⟨h1, h2, h3, fun _ hm => ?_⟩
        dsimp only at hm ⊢
        have hnt : ¬s.slipMode = "template" := by
          rw [hm]
          decide
        have := hg.2
        rwa [if_neg hnt] at this
      · rw [if_neg hg]
        exact ⟨h1, h2, h3, h4⟩
  | back3 =>
      simp only [CDStepE, loadIds, List.append_nil]
      by_cases hg : s.step = 3
      · rw [if_pos hg]
        refine ⟨h1, h2, h3, fun hle _ => ?_⟩
        dsimp only at hle
        exact absurd hle (by omega)
      · rw [if_neg hg]
        exact ⟨h1, h2, h3, h4⟩
  | setQrWhatsapp =>
      simp only [CDStepE, loadIds, List.append_nil]
      by_cases hg : s.step = 3
      · rw [if_pos hg]
        exact ⟨h1, h2, h3, h4⟩
      · rw [if_neg hg]
        exact ⟨h1, h2, h3, h4⟩
  | setQrMaps =>
      simp only [CDStepE, loadIds, List.append_nil]
      by_cases hg : s.step = 3
      · rw [if_pos hg]
        exact ⟨h1, h2, h3, h4⟩
      · rw [if_neg hg]
        exact ⟨h1, h2, h3, h4⟩
  | setQrCustom =>
      simp only [CDStepE, loadIds, List.append_nil]
      by_cases hg : s.step = 3
      · rw [if_pos hg]
        exact ⟨h1, h2, h3, h4⟩
      · rw [if_neg hg]
        exact ⟨h1, h2, h3, h4⟩
  | setQrNone =>
      simp only [CDStepE, loadIds, List.append_nil]
      by_cases hg : s.step = 3
      · rw [if_pos hg]
        exact ⟨h1, h2, h3, h4⟩
      · rw [if_neg hg]
        exact ⟨h1, h2, h3, h4⟩
  | setCustomQr v =>
      simp only [CDStepE, loadIds, List.append_nil]
      by_cases hg : s.step = 3 ∧ s.qrType = "custom"
      · rw [if_pos hg]
        exact ⟨h1, h2, h3, h4⟩
      · rw [if_neg hg]
        exact ⟨h1, h2, h3, h4⟩
  | generate res =>
      simp only [CDStepE, loadIds, List.append_nil]
      by_cases hg : s.step = 3 ∧ s.rendering = false ∧
          ¬(s.qrType = "custom" ∧ s.customQrValue = "")
      · rw [if_pos hg]
        rcases hv : s.selectedVariant with _ | v
        · exact ⟨h1, h2, h3, h4⟩
        · rcases uid with _ | d
          · exact ⟨h1, h2, h3, h4⟩
          · rcases res with _ | a
            · exact ⟨h1, h2, h3, h4⟩
            · refine ⟨h1, h2, h3, fun _ hm => ?_⟩
              dsimp only at hm ⊢
              exact h4 (by omega) hm
      · rw [if_neg hg]
        exact ⟨h1, h2, h3, h4⟩
  | createAnother =>
      simp only [CDStepE, loadIds, List.append_nil]
      by_cases hg : s.step = 4 ∧ s.renderedAsset.isSome
      · rw [if_pos hg]
        refine ⟨h1, h2, h3, fun hle _ => ?_⟩
        dsimp only at hle
        exact absurd hle (by omega)
      · rw [if_neg hg]
        exact ⟨h1, h2, h3, h4⟩

/-- The submission shape is monotone in the set of approved-fetched ids. -/
theorem GoodSub_mono {A B : List String} (hAB : ∀ x ∈ A, x ∈ B)
    {uid : Option String} {rd : RenderData} (h : GoodSub uid A rd) :
    GoodSub uid B rd := by
  obtain ⟨g1, g2, g3, g4, g5, g6, g7, g8⟩ := h
  refine ⟨g1, g2, g3, g4, g5, g6, g7, fun hm => ?_⟩
  obtain ⟨i, hi, hmem⟩ := g8 hm
  exact ⟨i, hi, hAB i hmem⟩

/-- Any submission emitted by one page step from an invariant-satisfying
state is well formed. -/
theorem CDStepE_emit (uid : Option String) (A : List String) (s : CDState)
    (e : CDEvent) (h : CDInv A s) (rd : RenderData)
    (hrd : rd ∈ (CDStepE uid s e).2) : GoodSub uid A rd := by
  obtain ⟨h1, h2, h3, h4⟩ := h
  cases e with
  | generate res =>
      simp only [CDStepE] at hrd
      by_cases hg : s.step = 3 ∧ s.rendering = false ∧
          ¬(s.qrType = "custom" ∧ s.customQrValue = "")
      · rw [if_pos hg] at hrd
        rcases hv : s.selectedVariant with _ | v
        · rw [hv] at hrd
          simp at hrd
        · rw [hv] at hrd
          rcases hu : uid with _ | d
          · rw [hu] at hrd
            simp at hrd
          · rw [hu] at hrd
            have hone : rd = renderDataOf d v s := by
              rcases res with _ | a
              · simpa using hrd
              · simpa using hrd
            subst hone
            refine ⟨h1, ?_, ?_, rfl, ?_, ?_, ?_, ?_⟩
            · by_cases hm : s.slipMode = "template" <;>
                simp [renderDataOf, hm]
            · by_cases hm : s.slipMode = "dealer_slip" <;>
                simp [renderDataOf, hm]
            · intro hq
              simp only [renderDataOf] at hq ⊢
              by_cases hn : s.qrType = "none"
              · rw [if_pos hn] at hq
                exact absurd hq (by simp)
              · rw [if_neg hn] at hq
                have hcust : s.qrType = "custom" := by
                  simpa using hq
                rw [if_pos hcust]
                refine ⟨s.customQrValue, rfl, fun hemp => ?_⟩
                exact hg.2.2 ⟨hcust, hemp⟩
            · intro hq
              simp only [renderDataOf] at hq ⊢
              by_cases hn : s.qrType = "none"
              · have : ¬s.qrType = "custom" := by
                  rw [hn]
                  decide
                rw [if_neg this]
              · rw [if_neg hn] at hq
                exact absurd hq (by simp)
            · intro hq
              simp only [renderDataOf] at hq ⊢
              by_cases hc : s.qrType = "custom"
              · have : ¬s.qrType = "none" := by
                  rw [hc]
                  decide
                rw [if_neg this, hc]
              · rw [if_neg hc] at hq
                exact absurd hq (by simp)
            · intro hm
              simp only [renderDataOf] at hm ⊢
              rw [if_pos hm]
              refine ⟨s.selectedDealerSlipId, rfl, ?_⟩
              have hne : s.selectedDealerSlipId ≠ "" := by
                refine h4 ?_ hm
                rw [hg.1]
              rcases h3 with h3 | h3
              · exact absurd h3 hne
              · exact h3
      · rw [if_neg hg] at hrd
        simp at hrd
  | load c ts slips =>
      simp only [CDStepE] at hrd
      simp at hrd
  | selectVariant v =>
      simp only [CDStepE] at hrd
      rcases hc : s.creative with _ | c
      · rw [hc] at hrd
        simp at hrd
      · rw [hc] at hrd
        dsimp only at hrd
        split at hrd <;> simp at hrd
  | next1 =>
      simp only [CDStepE] at hrd
      split at hrd <;> simp at hrd
  | back2 =>
      simp only [CDStepE] at hrd
      split at hrd <;> simp at hrd
  | setModeTemplate =>
      simp only [CDStepE] at hrd
      split at hrd <;> simp at hrd
  | setModeDealerSlip =>
      simp only [CDStepE] at hrd
      split at hrd <;> simp at hrd
  | selectTemplate t =>
      simp only [CDStepE] at hrd
      split at hrd <;> simp at hrd
  | selectSlip sl =>
      simp only [CDStepE] at hrd
      split at hrd <;> simp at hrd
  | next2 =>
      simp only [CDStepE] at hrd
      repeat' split at hrd
      all_goals simp at hrd
  | back3 =>
      simp only [CDStepE] at hrd
      split at hrd <;> simp at hrd
  | setQrWhatsapp =>
      simp only [CDStepE] at hrd
      split at hrd <;> simp at hrd
  | setQrMaps =>
      simp only [CDStepE] at hrd
      split at hrd <;> simp at hrd
  | setQrCustom =>
      simp only [CDStepE] at hrd
      split at hrd <;> simp at hrd
  | setQrNone =>
      simp only [CDStepE] at hrd
      split at hrd <;> simp at hrd
  | setCustomQr v =>
      simp only [CDStepE] at hrd
      split at hrd <;> simp at hrd
  | createAnother =>
      simp only [CDStepE] at hrd
      split at hrd <;> simp at hrd

/-- Every render submission along a trace from an invariant-satisfying
state is well formed with respect to the approved ids collected by then. -/
theorem CDSubs_sound (uid : Option String) :
    ∀ (es : List CDEvent) (A : List String) (s : CDState), CDInv A s →
      ∀ rd ∈ CDSubs uid s es, GoodSub uid (A ++ approvedIds uid es) rd := by
  intro es
  induction es with
  | nil =>
      intro A s _ rd hrd
      exact absurd hrd (by simp [CDSubs])
  | cons e es ih =>
      intro A s h rd hrd
      simp only [CDSubs] at hrd
      simp only [approvedIds]
      rcases List.mem_append.mp hrd with hrd | hrd
      · refine GoodSub_mono ?_ (CDStepE_emit uid A s e h rd hrd)
        intro x hx
        exact List.mem_append_left _ hx
      · have hstep := CDInv_step uid A s e h
        refine GoodSub_mono ?_ (ih (A ++ loadIds uid e) _ hstep rd hrd)
        intro x hx
        rwa [List.append_assoc] at hx

/-- The initial page state satisfies the invariant with no approved ids. -/
theorem CDInv_init : CDInv [] CDInit := by
  refine ⟨Or.inl rfl, ?_, Or.inl rfl, ?_⟩
  · intro sl hsl
    exact absurd hsl (by simp [CDInit])
  · intro hle
    exact absurd hle (by decide)

/-- C1: every render submission of the personalization flow carries a
`slip_mode` that is 'template' or 'dealer_slip'; `slip_template_id` is
non-null exactly when the mode is 'template' and `dealer_slip_id` is
non-null exactly when it is 'dealer_slip'; the body always carries the
session's dealer id (and, by construction of `renderDataOf`, the selected
variant id and the QR fields). -/
theorem render_request_shape (uid : Option String) (es : List CDEvent)
    (rd : RenderData) (h : rd ∈ CDSubs uid CDInit es) :
    (rd.slip_mode = "template" ∨ rd.slip_mode = "dealer_slip") ∧
    (rd.slip_template_id.isSome ↔ rd.slip_mode = "template") ∧
    (rd.dealer_slip_id.isSome ↔ rd.slip_mode = "dealer_slip") ∧
    uid = some rd.dealer_id := by
  have hg := CDSubs_sound uid es [] CDInit CDInv_init rd h
  exact ⟨hg.1, hg.2.1, hg.2.2.1, hg.2.2.2.1⟩

/-- Witness for C1: a trace that loads data, picks the first variant,
switches to dealer-slip mode, selects the approved slip and renders. -/
theorem render_request_shape_witness :
    (let rd := RenderData.mk "v1" "dealer_slip" none (some "sl1") "d1"
      (some "whatsapp") none
    (rd.slip_mode = "template" ∨ rd.slip_mode = "dealer_slip") ∧
    (rd.slip_template_id.isSome ↔ rd.slip_mode = "template") ∧
    (rd.dealer_slip_id.isSome ↔ rd.slip_mode = "dealer_slip") ∧
    some "d1" = some rd.dealer_id) :=
  render_request_shape (some "d1")
    [CDEvent.load (Creative.mk [Variant.mk "v1"]) [Template.mk "t1"]
      [Slip.mk "sl1"], CDEvent.next1, CDEvent.setModeDealerSlip,
     CDEvent.selectSlip (Slip.mk "sl1"), CDEvent.next2,
     CDEvent.generate (some (Asset.mk "a1" "u1"))]
    (RenderData.mk "v1" "dealer_slip" none (some "sl1") "d1"
      (some "whatsapp") none)
    (by decide)

/-- C2: every `dealer_slip_id` ever submitted in a render request is the id
of a slip delivered by a `status: 'approved'` fetch — the chooser only
offers slips from that approved-filtered list. -/
theorem render_dealer_slip_approved (uid : Option String)
    (es : List CDEvent) (rd : RenderData) (h : rd ∈ CDSubs uid CDInit es)
    (hm : rd.slip_mode = "dealer_slip") :
    ∃ i, rd.dealer_slip_id = some i ∧ i ∈ approvedIds uid es := by
  have hg := CDSubs_sound uid es [] CDInit CDInv_init rd h
  obtain ⟨i, hi, hmem⟩ := hg.2.2.2.2.2.2.2 hm
  exact ⟨i, hi, by simpa using hmem⟩

/-- Witness for C2 on the same concrete dealer-slip rendering trace. -/
theorem render_dealer_slip_approved_witness :
    ∃ i, (RenderData.mk "v1" "dealer_slip" none (some "sl1") "d1"
        (some "whatsapp") none).dealer_slip_id = some i ∧
      i ∈ approvedIds (some "d1")
        [CDEvent.load (Creative.mk [Variant.mk "v1"]) [Template.mk "t1"]
          [Slip.mk "sl1"], CDEvent.next1, CDEvent.setModeDealerSlip,
         CDEvent.selectSlip (Slip.mk "sl1"), CDEvent.next2,
         CDEvent.generate (some (Asset.mk "a1" "u1"))] :=
  render_dealer_slip_approved (some "d1")
    [CDEvent.load (Creative.mk [Variant.mk "v1"]) [Template.mk "t1"]
      [Slip.mk "sl1"], CDEvent.next1, CDEvent.setModeDealerSlip,
     CDEvent.selectSlip (Slip.mk "sl1"), CDEvent.next2,
     CDEvent.generate (some (Asset.mk "a1" "u1"))]
    (RenderData.mk "v1" "dealer_slip" none (some "sl1") "d1"
      (some "whatsapp") none)
    (by decide) rfl

/-- C3: a render submission with QR kind 'custom' always carries a
non-empty `qr_value` (the generate button is disabled while the custom URL
is empty), a submission with kind 'none' carries neither `qr_type` nor
`qr_value`, and a `qr_value` is only ever sent for kind 'custom'. -/
theorem render_qr_wellformed (uid : Option String) (es : List CDEvent)
    (rd : RenderData) (h : rd ∈ CDSubs uid CDInit es) :
    (rd.qr_type = some "custom" → ∃ p, rd.qr_value = some p ∧ p ≠ "") ∧
    (rd.qr_type = none → rd.qr_value = none) ∧
    (rd.qr_value.isSome → rd.qr_type = some "custom") := by
  have hg := CDSubs_sound uid es [] CDInit CDInv_init rd h
  exact ⟨hg.2.2.2.2.1, hg.2.2.2.2.2.1, hg.2.2.2.2.2.2.1⟩

/-- Witness for C3: a template-mode trace that selects a custom QR with a
non-empty URL before generating. -/
theorem render_qr_wellformed_witness :
    (let rd := RenderData.mk "v1" "template" (some "t1") none "d1"
      (some "custom") (some "https://x.example")
    (rd.qr_type = some "custom" → ∃ p, rd.qr_value = some p ∧ p ≠ "") ∧
    (rd.qr_type = none → rd.qr_value = none) ∧
    (rd.qr_value.isSome → rd.qr_type = some "custom")) :=
  render_qr_wellformed (some "d1")
    [CDEvent.load (Creative.mk [Variant.mk "v1"]) [Template.mk "t1"] [],
     CDEvent.next1, CDEvent.next2, CDEvent.setQrCustom,
     CDEvent.setCustomQr "https://x.example",
     CDEvent.generate (some (Asset.mk "a1" "u1"))]
    (RenderData.mk "v1" "template" (some "t1") none "d1"
      (some "custom") (some "https://x.example"))
    (by decide)

/-- Advancing into step 2 happens only through the step-1 continue button,
whose `disabled` requires a selected variant. -/
theorem step2_adv (uid : Option String) (s : CDState) (e : CDEvent)
    (h2 : (CDStepE uid s e).1.step = 2) (hlt : s.step < 2) :
    s.selectedVariant.isSome := by
  cases e
  all_goals simp only [CDStepE] at h2
  all_goals repeat' split at h2
  all_goals try dsimp only at h2
  all_goals try omega
  exact (by assumption : s.step = 1 ∧ s.selectedVariant.isSome).2

/-- Advancing into step 3 happens only through the step-2 continue button,
whose `disabled` requires the active slip mode's reference. -/
theorem step3_adv (uid : Option String) (s : CDState) (e : CDEvent)
    (h3 : (CDStepE uid s e).1.step = 3) (hlt : s.step < 3) :
    (s.slipMode = "template" → s.selectedTemplateId ≠ "") ∧
    (s.slipMode ≠ "template" → s.selectedDealerSlipId ≠ "") := by
  cases e
  all_goals simp only [CDStepE] at h3
  all_goals repeat' split at h3
  all_goals try dsimp only at h3
  all_goals try omega
  · rename_i hm hgc
    exact ⟨fun _ => hgc.2, fun hn => absurd hm hn⟩
  · rename_i hm hgc
    exact ⟨fun hmm => absurd hmm hm, fun _ => hgc.2⟩

/-- Step 4 is entered only by a successful render response, which is
stored in `renderedAsset`. -/
theorem step4_adv (uid : Option String) (s : CDState) (e : CDEvent)
    (h4 : (CDStepE uid s e).1.step = 4) (hne : s.step ≠ 4) :
    ∃ a, e = CDEvent.generate (some a) ∧
      (CDStepE uid s e).1.renderedAsset = some a := by
  cases e
  case generate res =>
      simp only [CDStepE] at h4 ⊢
      by_cases hg : s.step = 3 ∧ s.rendering = false ∧
          ¬(s.qrType = "custom" ∧ s.customQrValue = "")
      · rw [if_pos hg] at h4 ⊢
        rcases uid with _ | d
        · rcases hv : s.selectedVariant with _ | v
          · rw [hv] at h4
            dsimp only at h4
            omega
          · rw [hv] at h4
            dsimp only at h4
            omega
        · rcases hv : s.selectedVariant with _ | v
          · rw [hv] at h4
            dsimp only at h4
            omega
          · rw [hv] at h4
            rcases res with _ | a
            · dsimp only at h4
              omega
            · exact ⟨a, rfl, rfl⟩
      · rw [if_neg hg] at h4
        dsimp only at h4
        omega
  all_goals simp only [CDStepE] at h4
  all_goals repeat' split at h4
  all_goals try dsimp only at h4
  all_goals omega

/-- The Create Another button resets the wizard to step 1 and clears the
rendered asset. -/
theorem createAnother_resets (uid : Option String) (s : CDState)
    (h4 : s.step = 4) (hsome : s.renderedAsset.isSome) :
    (CDStepE uid s CDEvent.createAnother).1.step = 1 ∧
    (CDStepE uid s CDEvent.createAnother).1.renderedAsset = none := by
  simp only [CDStepE]
  rw [if_pos ⟨h4, hsome⟩]
  exact ⟨rfl, rfl⟩

/-- C8: the wizard advances to step 2 only with a variant selected, to
step 3 only with the active slip mode's reference selected, and to step 4
only by a successful render response stored in `renderedAsset`; Create
Another resets the step to 1 and clears `renderedAsset`. -/
theorem wizard_step_gating (uid : Option String) (s : CDState)
    (e : CDEvent) :
    ((CDStepE uid s e).1.step = 2 → s.step < 2 →
      s.selectedVariant.isSome) ∧
    ((CDStepE uid s e).1.step = 3 → s.step < 3 →
      (s.slipMode = "template" → s.selectedTemplateId ≠ "") ∧
      (s.slipMode ≠ "template" → s.selectedDealerSlipId ≠ "")) ∧
    ((CDStepE uid s e).1.step = 4 → s.step ≠ 4 →
      ∃ a, e = CDEvent.generate (some a) ∧
        (CDStepE uid s e).1.renderedAsset = some a) ∧
    (e = CDEvent.createAnother → s.step = 4 → s.renderedAsset.isSome →
      (CDStepE uid s e).1.step = 1 ∧
      (CDStepE uid s e).1.renderedAsset = none) := by
  refine ⟨step2_adv uid s e, step3_adv uid s e, step4_adv uid s e,
    fun he h4 hsome => ?_⟩
  subst he
  exact createAnother_resets uid s h4 hsome

/-- Witness for C8: the step-1 continue button on a state with the first
variant selected does advance, and the theorem recovers the selection. -/
theorem wizard_step_gating_witness :
    (CDState.mk (some (Creative.mk [Variant.mk "v1"]))
        (some (Variant.mk "v1")) [] [] none "template" "" "" "whatsapp" ""
        1 false).selectedVariant.isSome :=
  (wizard_step_gating (some "d1")
    (CDState.mk (some (Creative.mk [Variant.mk "v1"]))
      (some (Variant.mk "v1")) [] [] none "template" "" "" "whatsapp" ""
      1 false)
    CDEvent.next1).1 (by decide) (by decide)

end Brandslip
